import Mathlib

/-!
Shallow embedding of the PTY terminal manager in `src-tauri/src/terminal.rs`
(crate `forge`).  Pure data types are carried over directly; the stateful
manager operations become explicit state-passing functions over a registry
value, with the outcomes of external I/O calls (PTY allocation, process
spawn, handle writes, file-existence probes, environment variables) supplied
as explicit parameters.  Bytes are modelled as `Nat` values; the Rust
`HashMap<String, _>` registry is modelled as an association list with
unique keys, where removal filters out the key (faithful to `HashMap::remove`
since keys are unique).
-/

namespace Forge

/-- `TerminalSize` from terminal.rs: rows/cols as u16 values. -/
structure TerminalSize where
  rows : Nat
  cols : Nat
deriving DecidableEq, Repr

/-- `CreateTerminalOptions` from terminal.rs.  The `env` map of the Rust
code (`HashMap<String, String>`) is modelled as an association list whose
keys are unique (the HashMap invariant). -/
structure CreateTerminalOptions where
  shell : Option String
  cwd : Option String
  env : Option (List (String × String))
  size : Option TerminalSize

/-- `TerminalEvent` from terminal.rs: the closed set of events multiplexed
on the shared channel. -/
inductive TerminalEvent where
  | Output (terminal_id : String) (data : List Nat)
  | Exit (terminal_id : String) (exit_code : Option Int)
  | Error (terminal_id : String) (message : String)
deriving DecidableEq, Repr

/-- `CreateTerminalResponse` from terminal.rs. -/
structure CreateTerminalResponse where
  terminal_id : String
deriving DecidableEq, Repr

/-- The `Terminal` struct from terminal.rs.  The writer, child and
pty_master handles are external resources, modelled as opaque numeric
handle ids; `shutdown_tx` is `Option`al exactly as in the source
(`close_terminal` takes it out before sending). -/
structure Terminal where
  writer : Nat
  child : Nat
  shutdown_tx : Option Nat
  pty_master : Nat
deriving DecidableEq, Repr

/-- The session registry `HashMap<String, Arc<Mutex<Terminal>>>`, as an
association list with unique keys. -/
def Registry := List (String × Terminal)

instance : DecidableEq Registry := by
  unfold Registry
  infer_instance

/-- `HashMap::get`: first (and, keys being unique, only) binding wins. -/
def lookupReg (r : Registry) (id : String) : Option Terminal :=
  match r with
  | [] => none
  | (k, t) :: rest => if k = id then some t else lookupReg rest id

/-- `HashMap::remove`: with unique keys, removing a key is filtering out
every binding of that key. -/
def eraseReg (r : Registry) (id : String) : Registry :=
  match r with
  | [] => []
  | (k, t) :: rest => if k = id then eraseReg rest id else (k, t) :: eraseReg rest id

/-- `HashMap::insert`, preserving key uniqueness. -/
def insertReg (r : Registry) (id : String) (t : Terminal) : Registry :=
  (id, t) :: eraseReg r id

/-! ## Manager operations

Each operation is state-passing over the `Registry`.  The results of the
external I/O calls an operation makes (handle write, flush, resize, PTY
allocation, process spawn) are supplied as explicit `Except`-valued
parameters, since the Rust code only inspects success/failure and the
error's display string. -/

/-- Outcomes of the external calls made by `write_to_terminal`:
`writer.write_all(&data)` and `writer.flush()`.  The `String` is the
display form of the underlying `std::io::Error`. -/
structure WriteEnv where
  writeResult : Except String Unit
  flushResult : Except String Unit

/-- `TerminalManager::write_to_terminal`: look the id up; if absent return
the not-found error; otherwise write all bytes then flush, mapping either
failure into its message.  Returns the result together with the registry
(which this operation never mutates: it only takes the read lock). -/
def write_to_terminal (env : WriteEnv) (r : Registry) (terminal_id : String)
    (data : List Nat) : Except String Unit × Registry :=
  match lookupReg r terminal_id with
  | some _ =>
    match env.writeResult with
    | .error e => (.error ("Failed to write to terminal: " ++ e), r)
    | .ok _ =>
      match env.flushResult with
      | .error e => (.error ("Failed to flush terminal: " ++ e), r)
      | .ok _ => (.ok (), r)
  | none => (.error ("Terminal " ++ terminal_id ++ " not found"), r)

/-- Outcome of the external `pty_master.resize(pty_size)` call. -/
structure ResizeEnv where
  resizeResult : Except String Unit

/-- `TerminalManager::resize_terminal`: look the id up; if absent return
the not-found error; otherwise issue the resize on the PTY control handle. -/
def resize_terminal (env : ResizeEnv) (r : Registry) (terminal_id : String)
    (size : TerminalSize) : Except String Unit × Registry :=
  match lookupReg r terminal_id with
  | some _ =>
    match env.resizeResult with
    | .error e => (.error ("Failed to resize terminal: " ++ e), r)
    | .ok _ => (.ok (), r)
  | none => (.error ("Terminal " ++ terminal_id ++ " not found"), r)

/-- The externally visible side effects of `close_terminal`, in the order
the code performs them. -/
inductive CloseAction where
  | removeFromRegistry (terminal_id : String)
  | sendShutdown (terminal_id : String)
  | killChild (terminal_id : String)
  | waitChild (terminal_id : String)
deriving DecidableEq, Repr

/-- `TerminalManager::close_terminal`: under the write lock, remove the
binding; if one was present, take the shutdown sender and send on it (when
still present), kill the child, reap it with wait, and return Ok; otherwise
return the not-found error.  The third component records the side effects
in program order. -/
def close_terminal (r : Registry) (terminal_id : String) :
    Except String Unit × Registry × List CloseAction :=
  match lookupReg r terminal_id with
  | some t =>
    (.ok (), eraseReg r terminal_id,
      CloseAction.removeFromRegistry terminal_id ::
        ((match t.shutdown_tx with
          | some _ => [CloseAction.sendShutdown terminal_id]
          | none => []) ++
         [CloseAction.killChild terminal_id, CloseAction.waitChild terminal_id]))
  | none => (.error ("Terminal " ++ terminal_id ++ " not found"), r, [])

/-- `TerminalManager::read_from_terminal`: reading is handled by the
background task; this method ignores its id argument and returns an empty
vector. -/
def read_from_terminal (r : Registry) (terminal_id : String) :
    Except String (List Nat) × Registry :=
  (.ok [], r)

/-! ## Reader engine

`TerminalManager::start_reader_task` spawns a blocking loop.  Each
iteration first polls the shutdown channel (`try_recv`), breaking on a
received signal or a disconnected channel, and otherwise performs one
`reader.read(&mut buffer)` whose outcome drives the four-way match in the
source.  We model one iteration's read outcome (`ReadOutcome`), the
handling of that outcome (`readerStep`), and a whole run of the loop over
a sequence of iteration inputs (`readerRun`). -/

/-- Outcome of one `reader.read(&mut buffer)` call: `Ok(n)` together with
the buffer contents (of which the first `n` bytes are the bytes read), a
`WouldBlock` error, or any other error with its display message. -/
inductive ReadOutcome where
  | ok (buffer : List Nat) (n : Nat)
  | wouldBlock
  | fatal (message : String)
deriving DecidableEq, Repr

/-- What one iteration of the reader loop does with a read outcome:
the events it sends, whether it breaks out of the loop, and whether it
sleeps before retrying. -/
structure StepResult where
  events : List TerminalEvent
  stops : Bool
  sleeps : Bool
deriving DecidableEq, Repr

/-- The four-way match on `reader.read(&mut buffer)` in
`start_reader_task`: `Ok(0)` emits `Exit` with no exit code and breaks;
`Ok(n)` with `n > 0` emits `Output` carrying `buffer[..n].to_vec()` and
continues; a `WouldBlock` error sleeps 10ms and continues; any other error
emits `Error` with the formatted message and breaks. -/
def readerStep (terminal_id : String) : ReadOutcome → StepResult
  | .ok buffer n =>
    if n = 0 then
      { events := [.Exit terminal_id none], stops := true, sleeps := false }
    else
      { events := [.Output terminal_id (buffer.take n)], stops := false, sleeps := false }
  | .wouldBlock => { events := [], stops := false, sleeps := true }
  | .fatal e =>
    { events := [.Error terminal_id ("Read error: " ++ e)], stops := true, sleeps := false }

/-- One iteration's input: either the shutdown poll at the top of the loop
observes a stop condition (`Ok(_)` received or channel disconnected), or
the poll is empty and the iteration proceeds to a read with the given
outcome. -/
inductive LoopInput where
  | shutdownObserved
  | read (r : ReadOutcome)
deriving DecidableEq, Repr

/-- The events emitted by a whole run of the reader loop fed the given
sequence of iteration inputs (an exhausted input list models a reader
still blocked in `read`). -/
def readerRun (terminal_id : String) : List LoopInput → List TerminalEvent
  | [] => []
  | .shutdownObserved :: _ => []
  | .read o :: rest =>
    (readerStep terminal_id o).events ++
      (if (readerStep terminal_id o).stops then [] else readerRun terminal_id rest)

/-- Why a run of the reader loop stops on the given inputs: the shutdown
poll (`shutdown`), a terminating read — EOF or a non-WouldBlock error —
(`natural`), or it is still running when the inputs run out (`exhausted`). -/
inductive StopCause where
  | shutdown
  | natural
  | exhausted
deriving DecidableEq, Repr

/-- Classifies a run of the reader loop by what stops it. -/
def stopCause (terminal_id : String) : List LoopInput → StopCause
  | [] => .exhausted
  | .shutdownObserved :: _ => .shutdown
  | .read o :: rest =>
    if (readerStep terminal_id o).stops then .natural else stopCause terminal_id rest

/-- An event is terminal when it is `Exit` or `Error`. -/
def isTerminalEvent : TerminalEvent → Bool
  | .Output _ _ => false
  | .Exit _ _ => true
  | .Error _ _ => true

/-- The cleanup after the reader loop exits (for any reason): remove the
session's own id from the registry. -/
def readerCleanup (r : Registry) (terminal_id : String) : Registry :=
  eraseReg r terminal_id

/-! ## Shell resolver and terminal creation -/

/-- The ambient facts `get_shell_command` consults on a non-Windows host:
which paths exist (`std::path::Path::exists`) and the value of the `SHELL`
environment variable (`std::env::var("SHELL")`, `none` on error). -/
structure ShellEnv where
  pathExists : String → Bool
  shellVar : Option String

/-- `TerminalManager::get_shell_command`, non-Windows branch: an explicit
shell in the options is returned verbatim; otherwise probe
`/bin/bash`, `/usr/bin/bash`, `/usr/local/bin/bash` in order, fall back to
`$SHELL`, then to `/bin/sh` if it exists, then to the bare string `sh`. -/
def get_shell_command (env : ShellEnv) (options : CreateTerminalOptions) : String :=
  match options.shell with
  | some shell => shell
  | none =>
    if env.pathExists "/bin/bash" then "/bin/bash"
    else if env.pathExists "/usr/bin/bash" then "/usr/bin/bash"
    else if env.pathExists "/usr/local/bin/bash" then "/usr/local/bin/bash"
    else
      match env.shellVar with
      | some s => s
      | none => if env.pathExists "/bin/sh" then "/bin/sh" else "sh"

/-- Modelled from the spec (§4.1) for comparison with the code: the shell
is the explicit option if present, else the first existing candidate in
the fixed order — the three bash paths (existing when the path exists),
the `SHELL` environment variable (existing when set), `/bin/sh` (when the
path exists), and the bare `sh` (always). -/
def shellSpecCandidates (env : ShellEnv) : List (Option String) :=
  [ if env.pathExists "/bin/bash" then some "/bin/bash" else none,
    if env.pathExists "/usr/bin/bash" then some "/usr/bin/bash" else none,
    if env.pathExists "/usr/local/bin/bash" then some "/usr/local/bin/bash" else none,
    env.shellVar,
    if env.pathExists "/bin/sh" then some "/bin/sh" else none,
    some "sh" ]

/-- First present element of a candidate list, defaulting to the last
resort `sh`. -/
def firstCandidate : List (Option String) → String
  | [] => "sh"
  | some s :: _ => s
  | none :: rest => firstCandidate rest

/-- The spec's description of the shell resolver as a whole. -/
def shellSpec (env : ShellEnv) (options : CreateTerminalOptions) : String :=
  match options.shell with
  | some shell => shell
  | none => firstCandidate (shellSpecCandidates env)

/-- An environment lookup function: what a key maps to in the child's
environment, `none` when unset. -/
def EnvMap := String → Option String

/-- One `cmd.env(key, value)` call: set (or override) one key. -/
def setEnv (e : EnvMap) (key value : String) : EnvMap :=
  fun k => if k = key then some value else e k

/-- A sequence of `cmd.env` calls applied left to right. -/
def applyEnvCalls (base : EnvMap) : List (String × String) → EnvMap
  | [] => base
  | (k, v) :: rest => applyEnvCalls (setEnv base k v) rest

/-- The `has_path` flag of `create_terminal`: whether the caller-supplied
env map contains a `PATH` key. -/
def hasPathKey (callerEnv : Option (List (String × String))) : Bool :=
  match callerEnv with
  | some l => l.any (fun kv => kv.1 = "PATH")
  | none => false

/-- The `cmd.env` calls `create_terminal` issues, in program order: every
caller-supplied pair, then the forced `TERM`, then — only when the caller
supplied no `PATH` and the process environment has one — that `PATH`. -/
def envCalls (callerEnv : Option (List (String × String)))
    (procPath : Option String) : List (String × String) :=
  (match callerEnv with
   | some l => l
   | none => []) ++
  [("TERM", "xterm-256color")] ++
  (if hasPathKey callerEnv then []
   else
     match procPath with
     | some p => [("PATH", p)]
     | none => [])

/-- The child's environment as built by `create_terminal`: the
`CommandBuilder`'s inherited base environment, overridden by the `cmd.env`
calls. -/
def childEnv (base : EnvMap) (callerEnv : Option (List (String × String)))
    (procPath : Option String) : EnvMap :=
  applyEnvCalls base (envCalls callerEnv procPath)

/-- The ambient facts and external call outcomes `create_terminal`
consumes, in the order the code makes the calls: the generated UUID, the
shell-resolution environment, the process `PATH`, the inherited base
environment, and the four fallible external calls (PTY allocation, child
spawn, reader clone, writer take — each an opaque handle id on success). -/
structure CreateEnv where
  newId : String
  shellEnv : ShellEnv
  procPath : Option String
  baseEnv : EnvMap
  openptyResult : Except String Nat
  spawnResult : Except String Nat
  cloneReaderResult : Except String Nat
  takeWriterResult : Except String Nat

/-- `TerminalManager::create_terminal`: resolve the shell, default the
size to 24×80, allocate the PTY, build the command (bash gets `-i -l`),
set cwd and environment, spawn the child, make the shutdown channel,
clone the reader and take the writer from the master, insert the new
`Terminal` under the fresh id, and start the reader task.  Each `?` in
the source propagates the mapped error before the insertion.  Returns the
response and the updated registry. -/
def create_terminal (env : CreateEnv) (r : Registry)
    (options : CreateTerminalOptions) :
    Except String CreateTerminalResponse × Registry :=
  let terminal_id := env.newId
  let _shell := get_shell_command env.shellEnv options
  let _size := match options.size with
    | some s => s
    | none => { rows := 24, cols := 80 : TerminalSize }
  match env.openptyResult with
  | .error e => (.error ("Failed to create PTY: " ++ e), r)
  | .ok masterHandle =>
    match env.spawnResult with
    | .error e => (.error ("Failed to spawn shell: " ++ e), r)
    | .ok childHandle =>
      match env.cloneReaderResult with
      | .error e => (.error ("Failed to clone reader: " ++ e), r)
      | .ok _readerHandle =>
        match env.takeWriterResult with
        | .error e => (.error ("Failed to take writer: " ++ e), r)
        | .ok writerHandle =>
          let terminal : Terminal :=
            { writer := writerHandle, child := childHandle,
              shutdown_tx := some 0, pty_master := masterHandle }
          (.ok { terminal_id := terminal_id },
           insertReg r terminal_id terminal)

/-! ## Registry lemmas -/

theorem lookupReg_eraseReg_self (r : Registry) (id : String) :
    lookupReg (eraseReg r id) id = none := by
  induction r with
  | nil => rfl
  | cons p rest ih =>
    obtain ⟨k, t⟩ := p
    by_cases hk : k = id
    · simp [eraseReg, hk, ih]
    · simp [eraseReg, lookupReg, hk, ih]

theorem lookupReg_eraseReg_other (r : Registry) (id k : String) (hk : k ≠ id) :
    lookupReg (eraseReg r id) k = lookupReg r k := by
  induction r with
  | nil => rfl
  | cons p rest ih =>
    obtain ⟨k', t⟩ := p
    by_cases h' : k' = id
    · subst h'
      have hne : ¬ (k' = k) := fun h => hk h.symm
      simp [eraseReg, lookupReg, hne, ih]
    · simp [eraseReg, h', lookupReg, ih, hk]

theorem eraseReg_eraseReg (r : Registry) (id : String) :
    eraseReg (eraseReg r id) id = eraseReg r id := by
  induction r with
  | nil => rfl
  | cons p rest ih =>
    obtain ⟨k, t⟩ := p
    by_cases hk : k = id
    · simp [eraseReg, hk, ih]
    · simp [eraseReg, hk, ih]

theorem eraseReg_of_not_mem (r : Registry) (id : String)
    (h : lookupReg r id = none) : eraseReg r id = r := by
  induction r with
  | nil => rfl
  | cons p rest ih =>
    obtain ⟨k, t⟩ := p
    by_cases hk : k = id
    · simp [lookupReg, hk] at h
    · simp [lookupReg, hk] at h
      simp [eraseReg, hk, ih h]

/-! ## Claim theorems -/

/-- C1: each iteration of the reader loop follows the four-case algorithm:
a read of zero bytes emits `Exit` with unknown (`none`) exit code and
stops; a read of `n > 0` bytes emits `Output` carrying exactly the first
`n` bytes of the buffer, in order, and continues; a would-block error
sleeps and retries without emitting; any other error emits `Error` and
stops. -/
theorem readerStep_four_cases (terminal_id : String) (buffer : List Nat)
    (n : Nat) (e : String) :
    readerStep terminal_id (.ok buffer 0) =
      { events := [.Exit terminal_id none], stops := true, sleeps := false } ∧
    (n ≠ 0 →
      readerStep terminal_id (.ok buffer n) =
        { events := [.Output terminal_id (buffer.take n)],
          stops := false, sleeps := false }) ∧
    readerStep terminal_id .wouldBlock =
      { events := [], stops := false, sleeps := true } ∧
    readerStep terminal_id (.fatal e) =
      { events := [.Error terminal_id ("Read error: " ++ e)],
        stops := true, sleeps := false } := by
  refine ⟨rfl, ?_, rfl, rfl⟩
  intro hn
  simp [readerStep, hn]

/-- Witness for C1: a two-byte read on a concrete session id. -/
theorem readerStep_four_cases_witness :
    readerStep "t1" (.ok [104, 105] 2) =
      { events := [.Output "t1" [104, 105]], stops := false, sleeps := false } :=
  (readerStep_four_cases "t1" [104, 105] 2 "e").2.1 (by decide)

/-- C3: on an id absent from the registry, `write_to_terminal`,
`resize_terminal` and `close_terminal` each return the not-found error
and leave the registry unchanged. -/
theorem unknown_id_ops (wenv : WriteEnv) (renv : ResizeEnv) (r : Registry)
    (terminal_id : String) (data : List Nat) (size : TerminalSize)
    (h : lookupReg r terminal_id = none) :
    write_to_terminal wenv r terminal_id data =
      (.error ("Terminal " ++ terminal_id ++ " not found"), r) ∧
    resize_terminal renv r terminal_id size =
      (.error ("Terminal " ++ terminal_id ++ " not found"), r) ∧
    close_terminal r terminal_id =
      (.error ("Terminal " ++ terminal_id ++ " not found"), r, []) := by
  refine ⟨?_, ?_, ?_⟩ <;>
    simp [write_to_terminal, resize_terminal, close_terminal, h]

/-- Witness for C3: the empty registry and an arbitrary id. -/
theorem unknown_id_ops_witness :
    write_to_terminal ⟨.ok (), .ok ()⟩ ([] : Registry) "ghost" [1] =
      (.error "Terminal ghost not found", []) ∧
    resize_terminal ⟨.ok ()⟩ ([] : Registry) "ghost" ⟨10, 10⟩ =
      (.error "Terminal ghost not found", []) ∧
    close_terminal ([] : Registry) "ghost" =
      (.error "Terminal ghost not found", [], []) :=
  unknown_id_ops ⟨.ok (), .ok ()⟩ ⟨.ok ()⟩ [] "ghost" [1] ⟨10, 10⟩ rfl

/-- C5: when the reader loop stops, its cleanup removes exactly its own
session id from the registry: afterwards the id is absent, every other
binding is untouched, a second cleanup (or a cleanup racing with
`close_terminal`'s removal) is a no-op rather than a fault, and a cleanup
on a registry that no longer holds the id leaves it exactly as it was. -/
theorem readerCleanup_spec (r : Registry) (terminal_id : String) :
    lookupReg (readerCleanup r terminal_id) terminal_id = none ∧
    (∀ k, k ≠ terminal_id →
      lookupReg (readerCleanup r terminal_id) k = lookupReg r k) ∧
    (lookupReg r terminal_id = none → readerCleanup r terminal_id = r) ∧
    readerCleanup (readerCleanup r terminal_id) terminal_id =
      readerCleanup r terminal_id ∧
    readerCleanup (close_terminal r terminal_id).2.1 terminal_id =
      (close_terminal r terminal_id).2.1 := by
  refine ⟨lookupReg_eraseReg_self r terminal_id,
    fun k hk => lookupReg_eraseReg_other r terminal_id k hk,
    fun h => eraseReg_of_not_mem r terminal_id h,
    eraseReg_eraseReg r terminal_id, ?_⟩
  cases h : lookupReg r terminal_id with
  | some t =>
    simp [close_terminal, h, readerCleanup, eraseReg_eraseReg]
  | none =>
    simp [close_terminal, h, readerCleanup, eraseReg_of_not_mem r terminal_id h]

/-- Witness for C5: cleanup of an id never present is the identity. -/
theorem readerCleanup_spec_witness :
    readerCleanup ([] : Registry) "t5" = [] :=
  (readerCleanup_spec [] "t5").2.2.1 rfl

/-- C10: `read_from_terminal` ignores its id entirely: for any registry
and any id — registered or not — it returns success with the empty byte
vector and the registry unchanged, in contrast to write/resize/close
which fail on unknown ids. -/
theorem read_from_terminal_spec (r : Registry) (terminal_id : String) :
    read_from_terminal r terminal_id = (Except.ok [], r) :=
  rfl

/-- C2: on a registered id, `close_terminal` succeeds, removing the
session from the registry first, then sending the single-use shutdown
signal, then killing and reaping the child — in that order; afterwards
the id is unregistered and a second `close_terminal` on it returns the
not-found error rather than crashing. -/
theorem close_terminal_spec (r : Registry) (terminal_id : String)
    (t : Terminal) (s : Nat)
    (hreg : lookupReg r terminal_id = some t)
    (htx : t.shutdown_tx = some s) :
    close_terminal r terminal_id =
      (.ok (), eraseReg r terminal_id,
        [CloseAction.removeFromRegistry terminal_id,
         CloseAction.sendShutdown terminal_id,
         CloseAction.killChild terminal_id,
         CloseAction.waitChild terminal_id]) ∧
    lookupReg (close_terminal r terminal_id).2.1 terminal_id = none ∧
    (close_terminal (close_terminal r terminal_id).2.1 terminal_id).1 =
      .error ("Terminal " ++ terminal_id ++ " not found") := by
  refine ⟨by simp [close_terminal, hreg, htx], ?_, ?_⟩
  · simp [close_terminal, hreg, lookupReg_eraseReg_self]
  · simp [close_terminal, hreg, lookupReg_eraseReg_self]

/-- Witness for C2: a one-session registry closed twice. -/
theorem close_terminal_spec_witness :
    close_terminal [("t2", ⟨1, 2, some 0, 3⟩)] "t2" =
      (.ok (), [],
        [CloseAction.removeFromRegistry "t2", CloseAction.sendShutdown "t2",
         CloseAction.killChild "t2", CloseAction.waitChild "t2"]) :=
  (close_terminal_spec [("t2", ⟨1, 2, some 0, 3⟩)] "t2" ⟨1, 2, some 0, 3⟩ 0
    rfl rfl).1

/-- C9: a failing handle write or flush on a registered session surfaces
as an error to the caller while the session stays registered: the
registry component of the result is the input registry, binding intact. -/
theorem write_failure_keeps_registration (env : WriteEnv) (r : Registry)
    (terminal_id : String) (data : List Nat) (t : Terminal)
    (hreg : lookupReg r terminal_id = some t)
    (hfail : (∃ e, env.writeResult = .error e) ∨
             (∃ e, env.flushResult = .error e)) :
    (∃ msg, (write_to_terminal env r terminal_id data).1 = .error msg) ∧
    (write_to_terminal env r terminal_id data).2 = r ∧
    lookupReg (write_to_terminal env r terminal_id data).2 terminal_id =
      some t := by
  have hsnd : (write_to_terminal env r terminal_id data).2 = r := by
    unfold write_to_terminal
    cases lookupReg r terminal_id <;>
      cases env.writeResult <;> cases env.flushResult <;> rfl
  refine ⟨?_, hsnd, by rw [hsnd]; exact hreg⟩
  rcases hfail with ⟨e, he⟩ | ⟨e, he⟩
  · exact ⟨"Failed to write to terminal: " ++ e,
      by simp [write_to_terminal, hreg, he]⟩
  · cases hw : env.writeResult with
    | error e' =>
      exact ⟨"Failed to write to terminal: " ++ e',
        by simp [write_to_terminal, hreg, hw]⟩
    | ok u =>
      exact ⟨"Failed to flush terminal: " ++ e,
        by simp [write_to_terminal, hreg, hw, he]⟩

/-- Witness for C9: a flush failure on a registered session. -/
theorem write_failure_keeps_registration_witness :
    (∃ msg,
      (write_to_terminal ⟨.ok (), .error "pipe"⟩ [("t9", ⟨1, 2, some 0, 3⟩)]
        "t9" [120]).1 = .error msg) ∧
    (write_to_terminal ⟨.ok (), .error "pipe"⟩ [("t9", ⟨1, 2, some 0, 3⟩)]
      "t9" [120]).2 = [("t9", ⟨1, 2, some 0, 3⟩)] ∧
    lookupReg (write_to_terminal ⟨.ok (), .error "pipe"⟩
      [("t9", ⟨1, 2, some 0, 3⟩)] "t9" [120]).2 "t9" = some ⟨1, 2, some 0, 3⟩ :=
  write_failure_keeps_registration ⟨.ok (), .error "pipe"⟩
    [("t9", ⟨1, 2, some 0, 3⟩)] "t9" [120] ⟨1, 2, some 0, 3⟩ rfl
    (Or.inr ⟨"pipe", rfl⟩)

/-- C4: if PTY allocation, child spawn, reader cloning or writer taking
fails, `create_terminal` returns the error synchronously and registers
nothing: the registry it returns is exactly the one it was given. -/
theorem create_terminal_failure (env : CreateEnv) (r : Registry)
    (options : CreateTerminalOptions)
    (h : (∃ e, env.openptyResult = .error e) ∨
         (∃ e, env.spawnResult = .error e) ∨
         (∃ e, env.cloneReaderResult = .error e) ∨
         (∃ e, env.takeWriterResult = .error e)) :
    (∃ msg, (create_terminal env r options).1 = .error msg) ∧
    (create_terminal env r options).2 = r := by
  cases hop : env.openptyResult with
  | error e =>
    exact ⟨⟨"Failed to create PTY: " ++ e, by simp [create_terminal, hop]⟩,
      by simp [create_terminal, hop]⟩
  | ok m =>
    cases hsp : env.spawnResult with
    | error e =>
      exact ⟨⟨"Failed to spawn shell: " ++ e, by simp [create_terminal, hop, hsp]⟩,
        by simp [create_terminal, hop, hsp]⟩
    | ok c =>
      cases hcl : env.cloneReaderResult with
      | error e =>
        exact ⟨⟨"Failed to clone reader: " ++ e,
          by simp [create_terminal, hop, hsp, hcl]⟩,
          by simp [create_terminal, hop, hsp, hcl]⟩
      | ok rd =>
        cases htw : env.takeWriterResult with
        | error e =>
          exact ⟨⟨"Failed to take writer: " ++ e,
            by simp [create_terminal, hop, hsp, hcl, htw]⟩,
            by simp [create_terminal, hop, hsp, hcl, htw]⟩
        | ok w =>
          rcases h with ⟨e, he⟩ | ⟨e, he⟩ | ⟨e, he⟩ | ⟨e, he⟩ <;> simp_all

/-- Witness for C4: PTY allocation fails on the empty registry. -/
theorem create_terminal_failure_witness :
    (∃ msg,
      (create_terminal
        ⟨"id4", ⟨fun _ => false, none⟩, none, fun _ => none,
          .error "boom", .ok 0, .ok 0, .ok 0⟩
        ([] : Registry) ⟨none, none, none, none⟩).1 = .error msg) ∧
    (create_terminal
      ⟨"id4", ⟨fun _ => false, none⟩, none, fun _ => none,
        .error "boom", .ok 0, .ok 0, .ok 0⟩
      ([] : Registry) ⟨none, none, none, none⟩).2 = [] :=
  create_terminal_failure
    ⟨"id4", ⟨fun _ => false, none⟩, none, fun _ => none,
      .error "boom", .ok 0, .ok 0, .ok 0⟩
    [] ⟨none, none, none, none⟩ (Or.inl ⟨"boom", rfl⟩)

/-- A reader-loop iteration that breaks sends exactly one event, and it
is a terminal one (`Exit` on EOF, `Error` on a fatal read error). -/
theorem readerStep_stops_event (terminal_id : String) (o : ReadOutcome)
    (h : (readerStep terminal_id o).stops = true) :
    ∃ t, (readerStep terminal_id o).events = [t] ∧ isTerminalEvent t = true := by
  cases o with
  | ok buffer n =>
    by_cases hn : n = 0
    · exact ⟨.Exit terminal_id none, by simp [readerStep, hn], rfl⟩
    · simp [readerStep, hn] at h
  | wouldBlock => simp [readerStep] at h
  | fatal e =>
    exact ⟨.Error terminal_id ("Read error: " ++ e), by simp [readerStep], rfl⟩

/-- A reader-loop iteration that continues sends no terminal event. -/
theorem readerStep_continue_events (terminal_id : String) (o : ReadOutcome)
    (h : (readerStep terminal_id o).stops = false) :
    ∀ e ∈ (readerStep terminal_id o).events, isTerminalEvent e = false := by
  cases o with
  | ok buffer n =>
    by_cases hn : n = 0
    · simp [readerStep, hn] at h
    · simp [readerStep, hn, isTerminalEvent]
  | wouldBlock => simp [readerStep]
  | fatal e => simp [readerStep] at h

/-- C6: over a whole reader-loop run, natural termination (EOF or a fatal
read error before any shutdown observation) emits exactly one terminal
event and it is the last event of the run, while a run stopped by the
shutdown signal of an explicit close emits no terminal event at all. -/
theorem reader_terminal_event_spec (terminal_id : String)
    (inputs : List LoopInput) :
    (stopCause terminal_id inputs = .natural →
      ((readerRun terminal_id inputs).filter isTerminalEvent).length = 1 ∧
      ((readerRun terminal_id inputs).getLast?).map isTerminalEvent =
        some true) ∧
    (stopCause terminal_id inputs = .shutdown →
      (readerRun terminal_id inputs).filter isTerminalEvent = []) := by
  induction inputs with
  | nil =>
    refine ⟨fun h => ?_, fun h => ?_⟩ <;> simp [stopCause] at h
  | cons i rest ih =>
    cases i with
    | shutdownObserved =>
      refine ⟨fun h => ?_, fun h => ?_⟩
      · simp [stopCause] at h
      · simp [readerRun]
    | read o =>
      by_cases hs : (readerStep terminal_id o).stops = true
      · obtain ⟨t, hev, hterm⟩ := readerStep_stops_event terminal_id o hs
        refine ⟨fun h => ?_, fun h => ?_⟩
        · simp [readerRun, hs, hev, hterm]
        · simp [stopCause, hs] at h
      · have hs' : (readerStep terminal_id o).stops = false :=
          Bool.not_eq_true _ ▸ eq_false_of_ne_true hs
        have hne := readerStep_continue_events terminal_id o hs'
        have hrun : readerRun terminal_id (LoopInput.read o :: rest) =
            (readerStep terminal_id o).events ++ readerRun terminal_id rest := by
          simp [readerRun, hs']
        have hfilter :
            (readerStep terminal_id o).events.filter isTerminalEvent = [] := by
          rw [List.filter_eq_nil_iff]
          intro a ha
          simp [hne a ha]
        refine ⟨fun h => ?_, fun h => ?_⟩
        · have h' : stopCause terminal_id rest = .natural := by
            simpa [stopCause, hs'] using h
          obtain ⟨hcount, hlast⟩ := ih.1 h'
          refine ⟨?_, ?_⟩
          · rw [hrun, List.filter_append, hfilter]
            simpa using hcount
          · have hl2 : readerRun terminal_id rest ≠ [] := by
              intro hnil
              rw [hnil] at hlast
              simp at hlast
            rw [hrun, List.getLast?_append_of_ne_nil _ hl2]
            exact hlast
        · have h' : stopCause terminal_id rest = .shutdown := by
            simpa [stopCause, hs'] using h
          rw [hrun, List.filter_append, hfilter, ih.2 h']
          rfl

/-- Witness for C6: a run with one output read then EOF terminates
naturally with exactly one terminal event, last. -/
theorem reader_terminal_event_spec_witness :
    ((readerRun "t6" [.read (.ok [104, 105] 2), .read (.ok [] 0)]).filter
        isTerminalEvent).length = 1 ∧
    ((readerRun "t6" [.read (.ok [104, 105] 2), .read (.ok [] 0)]).getLast?).map
        isTerminalEvent = some true :=
  (reader_terminal_event_spec "t6"
    [.read (.ok [104, 105] 2), .read (.ok [] 0)]).1 (by decide)

/-- C6 counterexample: `close_terminal` succeeds on a registered session
(removing it and sending the shutdown signal), yet the signal is only
polled between reads — a reader blocked inside `read` at close time never
reaches the poll again: the EOF produced by the killed child arrives
first and the loop emits one final `Exit` event for the explicitly closed
session. -/
theorem close_still_emits_exit_counterexample :
    (close_terminal [("t6c", ⟨1, 2, some 0, 3⟩)] "t6c").1 = .ok () ∧
    readerRun "t6c" [.read (.ok [] 0)] = [.Exit "t6c" none] :=
  ⟨rfl, rfl⟩

/-- C7: the shell resolver is total by type and agrees exactly with the
spec's description: an explicit shell is returned verbatim, and otherwise
the first present candidate of the ordered fallback chain wins. -/
theorem get_shell_command_spec (env : ShellEnv)
    (options : CreateTerminalOptions) :
    get_shell_command env options = shellSpec env options ∧
    (∀ s, options.shell = some s → get_shell_command env options = s) := by
  constructor
  · cases hsh : options.shell with
    | some s => simp [get_shell_command, shellSpec, hsh]
    | none =>
      simp only [get_shell_command, shellSpec, hsh]
      by_cases h1 : env.pathExists "/bin/bash" = true <;>
        by_cases h2 : env.pathExists "/usr/bin/bash" = true <;>
          by_cases h3 : env.pathExists "/usr/local/bin/bash" = true <;>
            cases hsv : env.shellVar <;>
              by_cases h4 : env.pathExists "/bin/sh" = true <;>
                simp [shellSpecCandidates, firstCandidate, h1, h2, h3, hsv, h4]
  · intro s hs
    simp [get_shell_command, hs]

/-- Witness for C7: an explicit shell option is returned verbatim. -/
theorem get_shell_command_spec_witness :
    get_shell_command ⟨fun _ => false, none⟩
      ⟨some "/bin/zsh", none, none, none⟩ = "/bin/zsh" :=
  (get_shell_command_spec ⟨fun _ => false, none⟩
    ⟨some "/bin/zsh", none, none, none⟩).2 "/bin/zsh" rfl

/-! ## Environment-building lemmas -/

theorem applyEnvCalls_append (base : EnvMap) (l1 l2 : List (String × String)) :
    applyEnvCalls base (l1 ++ l2) = applyEnvCalls (applyEnvCalls base l1) l2 := by
  induction l1 generalizing base with
  | nil => rfl
  | cons kv rest ih =>
    obtain ⟨k, v⟩ := kv
    simp [applyEnvCalls, ih]

theorem applyEnvCalls_singleton (base : EnvMap) (k v key : String) :
    applyEnvCalls base [(k, v)] key = if key = k then some v else base key :=
  rfl

theorem applyEnvCalls_not_key (base : EnvMap) (l : List (String × String))
    (k : String) (h : ∀ kv ∈ l, kv.1 ≠ k) :
    applyEnvCalls base l k = base k := by
  induction l generalizing base with
  | nil => rfl
  | cons kv rest ih =>
    obtain ⟨k', v⟩ := kv
    have hk' : k' ≠ k := h (k', v) (List.mem_cons_self _ _)
    rw [applyEnvCalls, ih _ (fun kv hkv => h kv (List.mem_cons_of_mem _ hkv))]
    simp [setEnv, Ne.symm hk']

theorem applyEnvCalls_mem_nodup (l : List (String × String)) (k v : String) :
    ∀ (base : EnvMap), (l.map Prod.fst).Nodup → (k, v) ∈ l →
      applyEnvCalls base l k = some v := by
  induction l with
  | nil =>
    intro base _ hmem
    simp at hmem
  | cons kv rest ih =>
    intro base hnd hmem
    obtain ⟨k', v'⟩ := kv
    rcases List.mem_cons.mp hmem with heq | hmem'
    · injection heq with hk hv
      subst hk
      subst hv
      have hnotin : ∀ kv2 ∈ rest, kv2.1 ≠ k := by
        intro kv2 h2 hk2
        have hmem2 : k ∈ rest.map Prod.fst :=
          List.mem_map.mpr ⟨kv2, h2, hk2⟩
        exact (List.nodup_cons.mp (by simpa using hnd)).1 hmem2
      rw [applyEnvCalls, applyEnvCalls_not_key _ _ _ hnotin]
      simp [setEnv]
    · have hnd' : (rest.map Prod.fst).Nodup :=
        (List.nodup_cons.mp (by simpa using hnd)).2
      rw [applyEnvCalls]
      exact ih _ hnd' hmem'

/-- C8 counterexample: when the caller supplies an env map without `PATH`
and the manager's own process environment has no `PATH` either, the
`PATH` injection does not happen (the inherited base lacking `PATH`, the
child ends up without one), refuting "`PATH` is injected exactly when the
caller's env map contains no `PATH` key, so the child is guaranteed a
`PATH`". -/
theorem childEnv_no_path_counterexample :
    hasPathKey (some []) = false ∧
    childEnv (fun _ => none) (some []) none "PATH" = none := by
  exact ⟨rfl, rfl⟩

/-- C8 amended: the child environment always maps `TERM` to
`xterm-256color`, overriding a caller-supplied `TERM`; `PATH` is injected
from the process environment exactly when the caller's env map contains
no `PATH` key **and** the process environment defines `PATH` (otherwise
the child falls back to the inherited base environment's `PATH`, which
may be absent); a caller-supplied `PATH` is passed through unchanged. -/
theorem childEnv_spec (base : EnvMap)
    (callerEnv : Option (List (String × String))) (procPath : Option String)
    (p : String) (l : List (String × String)) :
    childEnv base callerEnv procPath "TERM" = some "xterm-256color" ∧
    (hasPathKey callerEnv = false → procPath = some p →
      childEnv base callerEnv procPath "PATH" = some p) ∧
    (hasPathKey callerEnv = false → procPath = none →
      childEnv base callerEnv procPath "PATH" = base "PATH") ∧
    (callerEnv = some l → (l.map Prod.fst).Nodup → ("PATH", p) ∈ l →
      childEnv base callerEnv procPath "PATH" = some p) := by
  have hgen : ∀ (cl tail : List (String × String)),
      (∀ kv ∈ tail, kv.1 ≠ "TERM") →
      applyEnvCalls base ((cl ++ [("TERM", "xterm-256color")]) ++ tail)
        "TERM" = some "xterm-256color" := by
    intro cl tail htail
    rw [applyEnvCalls_append, applyEnvCalls_not_key _ _ _ htail,
      applyEnvCalls_append, applyEnvCalls_singleton]
    simp
  refine ⟨?_, ?_, ?_, ?_⟩
  · rw [childEnv, envCalls.eq_def]
    apply hgen
    cases hpk : hasPathKey callerEnv <;> cases hpp : procPath <;>
      intro kv hkv <;> simp_all
  · intro hpk hpp
    rw [childEnv, envCalls.eq_def, hpk, hpp]
    simp only [Bool.false_eq_true, if_false]
    rw [applyEnvCalls_append, applyEnvCalls_singleton]
    simp
  · intro hpk hpp
    subst hpp
    cases callerEnv with
    | none => rfl
    | some l' =>
      have hall : ∀ kv ∈ l', kv.1 ≠ "PATH" := by
        have h2 := hpk
        simp only [hasPathKey, List.any_eq_false, decide_eq_true_eq] at h2
        exact h2
      have hclP : ∀ kv ∈ l' ++ [("TERM", "xterm-256color")], kv.1 ≠ "PATH" := by
        intro kv hkv
        rcases List.mem_append.mp hkv with h | h
        · exact hall kv h
        · simp at h
          simp [h]
      rw [childEnv, envCalls.eq_def]
      simp only [hpk, Bool.false_eq_true, if_false, List.append_nil]
      exact applyEnvCalls_not_key _ _ _ hclP
  · intro hce hnd hmem
    have hpk : hasPathKey callerEnv = true := by
      rw [hce]
      simp only [hasPathKey]
      exact List.any_eq_true.mpr ⟨("PATH", p), hmem, by simp⟩
    rw [childEnv, envCalls.eq_def, hpk, hce]
    simp only [if_true, List.append_nil]
    rw [applyEnvCalls_append, applyEnvCalls_singleton]
    simp only [String.reduceEq, if_false]
    exact applyEnvCalls_mem_nodup l "PATH" p base hnd hmem

/-- Witness for C8: with a one-entry caller env `{FOO ↦ bar}` and process
`PATH=/usr/bin`, the child sees the forced `TERM` and the injected
`PATH`. -/
theorem childEnv_spec_witness :
    childEnv (fun _ => none) (some [("FOO", "bar")]) (some "/usr/bin")
        "TERM" = some "xterm-256color" ∧
    childEnv (fun _ => none) (some [("FOO", "bar")]) (some "/usr/bin")
        "PATH" = some "/usr/bin" :=
  ⟨(childEnv_spec (fun _ => none) (some [("FOO", "bar")]) (some "/usr/bin")
      "/usr/bin" []).1,
   (childEnv_spec (fun _ => none) (some [("FOO", "bar")]) (some "/usr/bin")
      "/usr/bin" []).2.1 rfl rfl⟩

end Forge
